import Mathlib

/-!
Shallow embedding of the cart/checkout/register routes of `src/app.py`
(perfume storefront).  Products live in a document store, the cart lives in
the per-browser session, orders are inserted into an order collection.

Modelling choices:
* Python ints are `Int`.
* The catalog (`db.Products`) is a lookup function `Nat → Option Product`
  (only `name` and `price` are read by the cart routes).
* The session is a structure with an optional `cart` entry and an optional
  `user_id` entry, mirroring `session.get('cart', [])`, `session['cart'] = …`,
  `session.pop('cart', None)` and `session['user_id']`.
* The order and customer collections are lists; `insert_one` appends.
* A request that finishes with a response (render or redirect) is `ok`,
  a request that dies on an uncaught Python exception is `exn`; both carry
  the session state the request leaves behind.
* The form field `quantity` reaches the handler as `int(request.form.get('quantity'))`:
  we model the already-attempted conversion as `Option Int`
  (`none` = the string did not parse as an integer, so `int` raises).
-/

/-- A product record as read by the cart routes (`name`, `price`). -/
structure Product where
  name : String
  price : Int
deriving DecidableEq, Repr

/-- The catalog store: lookup by product id (`db.Products.find_one`). -/
def Catalog : Type := Nat → Option Product

/-- One cart line as appended by `add_to_cart`:
`{"product_id": …, "name": product['name'], "price": product['price'], "quantity": …}`. -/
structure CartLine where
  product_id : Nat
  name : String
  price : Int
  quantity : Int
deriving DecidableEq, Repr

/-- The per-browser session: the `cart` key (absent until first write,
removed by `session.pop`) and the `user_id` key set at login. -/
structure SessionState where
  cart : Option (List CartLine)
  user_id : Option String
deriving DecidableEq, Repr

/-- `session.get('cart', [])`. -/
def SessionState.getCart (s : SessionState) : List CartLine :=
  s.cart.getD []

/-- Outcome of one HTTP request: a normal response (`ok`) or an uncaught
exception (`exn`); both record the session state after the request. -/
inductive ReqOutcome (α : Type) where
  | ok : α → ReqOutcome α
  | exn : α → ReqOutcome α
deriving DecidableEq, Repr

/-- `POST /add_to_cart/<product_id>` (`add_to_cart`, src/app.py:184-199).
`int(request.form.get('quantity'))` raises on a non-integer string (`exn`);
otherwise the product is looked up and, when found, a new line is appended
to the session cart; when not found the handler just redirects.  There is
no check on the sign or size of `quantity`. -/
def add_to_cart (catalog : Catalog) (product_id : Nat) (quantityForm : Option Int)
    (s : SessionState) : ReqOutcome SessionState :=
  match quantityForm with
  | none => .exn s
  | some quantity =>
    match catalog product_id with
    | some product =>
        let newCart := s.getCart ++ [⟨product_id, product.name, product.price, quantity⟩]
        .ok { s with cart := some newCart }
    | none => .ok s

/-- One row of the rendered cart page: fresh name/price from the catalog,
quantity from the line, `total = price * quantity`. -/
structure ResolvedLine where
  name : String
  price : Int
  quantity : Int
  total : Int
deriving DecidableEq, Repr

/-- The `for item in cart` loop of `view_cart`: re-resolve each line's
product; a line whose product is gone contributes nothing; otherwise the
row is appended to `cart_details` and its total added to `total_price`. -/
def viewCartLoop (catalog : Catalog) : List CartLine → List ResolvedLine × Int
  | [] => ([], 0)
  | item :: rest =>
    match catalog item.product_id with
    | some product =>
        let r := viewCartLoop catalog rest
        (⟨product.name, product.price, item.quantity, product.price * item.quantity⟩ :: r.1,
          product.price * item.quantity + r.2)
    | none => viewCartLoop catalog rest

/-- `GET /cart` (`view_cart`, src/app.py:202-217): reads the session cart,
renders resolved rows and the grand total, and never writes the session
(the returned session is the one the request leaves behind). -/
def view_cart (catalog : Catalog) (s : SessionState) :
    (List ResolvedLine × Int) × SessionState :=
  (viewCartLoop catalog s.getCart, s)

/-- A persisted order document as built by `checkout`. -/
structure Order where
  customer_id : String
  products : List CartLine
  total_price : Int
  order_date : String
  status : String
deriving DecidableEq, Repr

/-- `sum(item['price'] * item['quantity'] for item in cart)`. -/
def cartTotal (cart : List CartLine) : Int :=
  (cart.map (fun item => item.price * item.quantity)).sum

/-- `POST /checkout` (`checkout`, src/app.py:221-241).  Empty cart: redirect,
no writes.  Missing `session['user_id']`: uncaught `KeyError` (`exn`), no
writes.  Otherwise build the order from the stored cart lines (snapshot
name/price, no catalog lookup), insert it, and pop the cart. -/
def checkout (now : String) (s : SessionState) (orders : List Order) :
    ReqOutcome (SessionState × List Order) :=
  let cart := s.getCart
  if cart = [] then
    .ok (s, orders)
  else
    match s.user_id with
    | none => .exn (s, orders)
    | some customer_id =>
      let order : Order :=
        { customer_id := customer_id
          products := cart
          total_price := cartTotal cart
          order_date := now
          status := "pending" }
      .ok ({ s with cart := none }, orders ++ [order])

/-- A customer document as inserted by `register`. -/
structure Customer where
  name : String
  email : String
  phone : String
  registration_date : String
deriving DecidableEq, Repr

/-- Outcome of a `POST /register` submission. -/
inductive RegisterResult where
  | invalidForm
  | duplicateEmail
  | registered
deriving DecidableEq, Repr

/-- `POST /register` (`register`, src/app.py:263-285).  WTForms validation is
an external collaborator, modelled by the boolean `formValid`.  On a valid
form the handler looks the email up in `Customers`; a hit returns
"Email already registered" with no insert, otherwise exactly one customer
document is inserted. -/
def register (customers : List Customer) (formValid : Bool)
    (name email phone now : String) : RegisterResult × List Customer :=
  if formValid then
    match customers.find? (fun c => c.email == email) with
    | some _ => (.duplicateEmail, customers)
    | none => (.registered, customers ++ [⟨name, email, phone, now⟩])
  else
    (.invalidForm, customers)

/-- A one-product catalog used for concrete scenarios: product 1 is "A"
priced 10; every other id is absent. -/
def catalogA : Catalog := fun pid => if pid = 1 then some ⟨"A", 10⟩ else none

/-- A catalog in which no product resolves (e.g. after deletions). -/
def emptyCatalog : Catalog := fun _ => none

lemma checkout_ok (now : String) (s : SessionState) (orders : List Order)
    (cid : String) (hcart : s.getCart ≠ []) (hid : s.user_id = some cid) :
    checkout now s orders =
      ReqOutcome.ok ({ s with cart := none },
        orders ++ [⟨cid, s.getCart, cartTotal s.getCart, now, "pending"⟩]) := by
  simp only [checkout, hid, if_neg hcart]

/-- C1: on a non-empty session cart with a session-resident customer id,
checkout returns a redirect, appends exactly one order to the order store —
status "pending", the session's user id as customer, the cart's lines as
products, and total price the sum of stored price × quantity — and removes
the cart from the session, leaving it empty. -/
theorem checkout_success (now : String) (s : SessionState) (orders : List Order)
    (cid : String) (hcart : s.getCart ≠ []) (hid : s.user_id = some cid) :
    checkout now s orders =
      ReqOutcome.ok ({ s with cart := none },
        orders ++ [⟨cid, s.getCart, cartTotal s.getCart, now, "pending"⟩]) ∧
    SessionState.getCart { s with cart := none } = [] ∧
    (orders ++ [(⟨cid, s.getCart, cartTotal s.getCart, now, "pending"⟩ : Order)]).length =
      orders.length + 1 := by
  exact ⟨checkout_ok now s orders cid hcart hid, rfl, by simp⟩

/-- Witness for C1: the spec's 2-line cart (price 10 qty 2, price 5 qty 1)
checks out to one pending order with total 25 and an empty cart. -/
theorem checkout_success_witness :
    checkout "t" ⟨some [⟨1, "A", 10, 2⟩, ⟨2, "B", 5, 1⟩], some "u1"⟩ [] =
      ReqOutcome.ok (⟨none, some "u1"⟩,
        [⟨"u1", [⟨1, "A", 10, 2⟩, ⟨2, "B", 5, 1⟩], 25, "t", "pending"⟩]) ∧
    SessionState.getCart ⟨none, some "u1"⟩ = [] := by
  have h := checkout_success "t" ⟨some [⟨1, "A", 10, 2⟩, ⟨2, "B", 5, 1⟩], some "u1"⟩ []
    "u1" (by decide) rfl
  exact ⟨h.1, h.2.1⟩

/-- C7: checkout on an empty cart (missing or empty session entry) redirects
and performs no writes: the order store and the session are returned
unchanged. -/
theorem checkout_empty_cart (now : String) (s : SessionState) (orders : List Order)
    (h : s.getCart = []) :
    checkout now s orders = ReqOutcome.ok (s, orders) := by
  simp only [checkout, h, if_pos]

/-- Witness for C7 at a fresh session with no cart entry. -/
theorem checkout_empty_cart_witness :
    checkout "t" ⟨none, none⟩ [] = ReqOutcome.ok (⟨none, none⟩, []) :=
  checkout_empty_cart "t" ⟨none, none⟩ [] rfl

/-- C8: add-to-cart with a product id that does not resolve in the catalog
is a silent no-op: the handler redirects and the session is exactly as
before, no line appended. -/
theorem add_to_cart_not_found (catalog : Catalog) (pid : Nat) (q : Int)
    (s : SessionState) (_hq : 0 < q) (h : catalog pid = none) :
    add_to_cart catalog pid (some q) s = ReqOutcome.ok s := by
  simp only [add_to_cart, h]

/-- Witness for C8: adding absent product 5 with quantity 3 to a session
with an existing cart leaves the session unchanged. -/
theorem add_to_cart_not_found_witness :
    add_to_cart emptyCatalog 5 (some 3) ⟨some [⟨1, "A", 10, 1⟩], none⟩ =
      ReqOutcome.ok ⟨some [⟨1, "A", 10, 1⟩], none⟩ :=
  add_to_cart_not_found emptyCatalog 5 3 ⟨some [⟨1, "A", 10, 1⟩], none⟩ (by decide) rfl

/-- C10: view_cart is read-only with respect to the session: the session
state after the request equals the one before, so the stored cart — stale
lines included — is untouched; dropping happens only in the rendered view. -/
theorem view_cart_readonly (catalog : Catalog) (s : SessionState) :
    (view_cart catalog s).2 = s ∧
    ((view_cart catalog s).2).getCart = s.getCart :=
  ⟨rfl, rfl⟩

/-- The rendered view one cart line contributes, if its product resolves. -/
def resolveLine (catalog : Catalog) (item : CartLine) : Option ResolvedLine :=
  (catalog item.product_id).map
    (fun p => ⟨p.name, p.price, item.quantity, p.price * item.quantity⟩)

lemma viewCartLoop_characterization (catalog : Catalog) (cart : List CartLine) :
    (viewCartLoop catalog cart).1 = cart.filterMap (resolveLine catalog) ∧
    (viewCartLoop catalog cart).2 =
      ((viewCartLoop catalog cart).1.map ResolvedLine.total).sum := by
  induction cart with
  | nil => exact ⟨rfl, rfl⟩
  | cons item rest ih =>
    cases h : catalog item.product_id with
    | none =>
        refine ⟨?_, ?_⟩ <;>
          simp [viewCartLoop, h, resolveLine, List.filterMap_cons, ih.1, ih.2]
    | some p =>
        refine ⟨?_, ?_⟩ <;>
          simp [viewCartLoop, h, resolveLine, List.filterMap_cons, ih.1, ih.2]

/-- C5: view_cart renders one row per cart line whose product still
resolves (fresh name and price from the catalog, `total = price × quantity`),
silently drops lines whose product is gone, and its grand total is the sum
of the rendered rows' totals — dropped lines contribute nothing. -/
theorem view_cart_resolution (catalog : Catalog) (s : SessionState) :
    (view_cart catalog s).1.1 = s.getCart.filterMap (resolveLine catalog) ∧
    (view_cart catalog s).1.2 =
      ((view_cart catalog s).1.1.map ResolvedLine.total).sum :=
  viewCartLoop_characterization catalog s.getCart

/-- C6: adding a product that is already in the cart appends a fresh line at
the end — cart length grows by exactly one and the existing lines are kept
as they were; quantities are never merged. -/
theorem add_to_cart_no_merge (catalog : Catalog) (pid : Nat) (q : Int)
    (p : Product) (s : SessionState)
    (_hmem : ∃ l ∈ s.getCart, l.product_id = pid)
    (_hq : 0 < q) (hp : catalog pid = some p) :
    add_to_cart catalog pid (some q) s =
      ReqOutcome.ok { s with cart := some (s.getCart ++ [⟨pid, p.name, p.price, q⟩]) } ∧
    (s.getCart ++ [(⟨pid, p.name, p.price, q⟩ : CartLine)]).length =
      s.getCart.length + 1 := by
  refine ⟨?_, by simp⟩
  simp only [add_to_cart, hp]

/-- Witness for C6: product 1 is already in the cart with quantity 1;
adding it again with quantity 1 yields two distinct lines, not one merged
quantity-2 line. -/
theorem add_to_cart_no_merge_witness :
    add_to_cart catalogA 1 (some 1) ⟨some [⟨1, "A", 10, 1⟩], none⟩ =
      ReqOutcome.ok ⟨some [⟨1, "A", 10, 1⟩, ⟨1, "A", 10, 1⟩], none⟩ ∧
    ([⟨1, "A", 10, 1⟩, (⟨1, "A", 10, 1⟩ : CartLine)]).length = 2 := by
  have h := add_to_cart_no_merge catalogA 1 1 ⟨"A", 10⟩ ⟨some [⟨1, "A", 10, 1⟩], none⟩
    ⟨⟨1, "A", 10, 1⟩, by decide⟩ (by decide) (by decide)
  exact ⟨h.1, by decide⟩

/-- Counterexample to C2 as stated: with product 1 resolvable and a fresh
session, add-to-cart with quantity 0 (≤ 0) does NOT fail — it appends a
quantity-0 line, so the cart is not left unchanged. -/
theorem add_to_cart_nonpositive_counterexample :
    add_to_cart catalogA 1 (some 0) ⟨none, none⟩ =
      ReqOutcome.ok ⟨some [⟨1, "A", 10, 0⟩], none⟩ ∧
    SessionState.getCart ⟨some [⟨1, "A", 10, 0⟩], none⟩ ≠
      SessionState.getCart ⟨none, none⟩ := by
  refine ⟨by decide, by decide⟩

/-- C2 amended: a non-integer quantity makes the int conversion raise an
uncaught error, so no line is appended and the session is unchanged; but
the handler has no positivity check — a quantity ≤ 0 with a resolvable
product id appends a line carrying that quantity, exactly as a positive
quantity would. -/
theorem add_to_cart_quantity_behavior (catalog : Catalog) (pid : Nat) (q : Int)
    (p : Product) (s : SessionState) (_hq : q ≤ 0) (hp : catalog pid = some p) :
    add_to_cart catalog pid none s = ReqOutcome.exn s ∧
    add_to_cart catalog pid (some q) s =
      ReqOutcome.ok { s with cart := some (s.getCart ++ [⟨pid, p.name, p.price, q⟩]) } := by
  refine ⟨rfl, ?_⟩
  simp only [add_to_cart, hp]

/-- Witness for the amended C2 at quantity 0 on a fresh session. -/
theorem add_to_cart_quantity_behavior_witness :
    add_to_cart catalogA 1 none ⟨none, none⟩ = ReqOutcome.exn ⟨none, none⟩ ∧
    add_to_cart catalogA 1 (some 0) ⟨none, none⟩ =
      ReqOutcome.ok ⟨some [⟨1, "A", 10, 0⟩], none⟩ := by
  have h := add_to_cart_quantity_behavior catalogA 1 0 ⟨"A", 10⟩ ⟨none, none⟩
    (by decide) (by decide)
  exact ⟨h.1, h.2⟩

/-- Counterexample to C3 as stated: a cart holds one snapshot line for
product 7 (price 10, qty 1), but product 7 no longer resolves.  view_cart
drops the line and shows grand total 0, while checkout keeps the line in the
order and charges the snapshot total 10 — checkout does not compute lines
and total the way listItems does. -/
theorem checkout_not_like_view_counterexample :
    (view_cart emptyCatalog ⟨some [⟨7, "Gone", 10, 1⟩], some "u1"⟩).1 = ([], 0) ∧
    checkout "t" ⟨some [⟨7, "Gone", 10, 1⟩], some "u1"⟩ [] =
      ReqOutcome.ok (⟨none, some "u1"⟩,
        [⟨"u1", [⟨7, "Gone", 10, 1⟩], 10, "t", "pending"⟩]) ∧
    (10 : Int) ≠ 0 := by
  refine ⟨by decide, by decide, by decide⟩

/-- C3 amended: checkout never consults the catalog.  The order's lines are
exactly the stored cart lines — unresolvable ones included — and its total
price is the sum of stored snapshot price × quantity; when the catalog
changed after the lines were added this can differ from the grand total
view_cart would display. -/
theorem checkout_snapshot_not_resolved (now : String) (s : SessionState)
    (orders : List Order) (cid : String)
    (hcart : s.getCart ≠ []) (hid : s.user_id = some cid) :
    ∃ o : Order,
      checkout now s orders = ReqOutcome.ok ({ s with cart := none }, orders ++ [o]) ∧
      o.products = s.getCart ∧
      o.total_price = cartTotal s.getCart :=
  ⟨⟨cid, s.getCart, cartTotal s.getCart, now, "pending"⟩,
    checkout_ok now s orders cid hcart hid, rfl, rfl⟩

/-- Witness for the amended C3: the counterexample cart checked out
concretely. -/
theorem checkout_snapshot_not_resolved_witness :
    ∃ o : Order,
      checkout "t" ⟨some [⟨7, "Gone", 10, 1⟩], some "u1"⟩ [] =
        ReqOutcome.ok (⟨none, some "u1"⟩, [] ++ [o]) ∧
      o.products = [⟨7, "Gone", 10, 1⟩] ∧
      o.total_price = 10 := by
  have h := checkout_snapshot_not_resolved "t" ⟨some [⟨7, "Gone", 10, 1⟩], some "u1"⟩
    [] "u1" (by decide) rfl
  obtain ⟨o, h1, h2, h3⟩ := h
  exact ⟨o, h1, h2, by rw [h3]; decide⟩

/-- C4: the price stored on a cart line is the catalog price at add time,
and checkout totals the stored snapshot prices without any catalog read:
after adding product `pid` at price `p.price`, checkout of the resulting
session charges `cartTotal s.getCart + p.price * q` — the add-time price
appears in the order no matter what the catalog holds at checkout time
(checkout takes no catalog at all). -/
theorem cartline_snapshot_price (catalog : Catalog) (pid : Nat) (q : Int)
    (p : Product) (s : SessionState) (cid : String) (now : String)
    (orders : List Order) (hp : catalog pid = some p) (hid : s.user_id = some cid) :
    add_to_cart catalog pid (some q) s =
      ReqOutcome.ok { s with cart := some (s.getCart ++ [⟨pid, p.name, p.price, q⟩]) } ∧
    checkout now { s with cart := some (s.getCart ++ [⟨pid, p.name, p.price, q⟩]) } orders =
      ReqOutcome.ok (⟨none, s.user_id⟩,
        orders ++ [⟨cid, s.getCart ++ [⟨pid, p.name, p.price, q⟩],
          cartTotal s.getCart + p.price * q, now, "pending"⟩]) := by
  constructor
  · simp only [add_to_cart, hp]
  · have hne : SessionState.getCart
        { s with cart := some (s.getCart ++ [⟨pid, p.name, p.price, q⟩]) } ≠ [] := by
      simp [SessionState.getCart]
    have htot : cartTotal (s.getCart ++ [(⟨pid, p.name, p.price, q⟩ : CartLine)]) =
        cartTotal s.getCart + p.price * q := by
      simp [cartTotal]
    have h := checkout_ok now
      { s with cart := some (s.getCart ++ [⟨pid, p.name, p.price, q⟩]) } orders cid hne hid
    rw [h]
    have hg : SessionState.getCart
        { s with cart := some (s.getCart ++ [⟨pid, p.name, p.price, q⟩]) } =
        s.getCart ++ [⟨pid, p.name, p.price, q⟩] := rfl
    rw [hg, htot]

/-- Witness for C4: add product 1 (price 10) with quantity 2 to a logged-in
fresh session, then check out: the order charges 20 from the stored
snapshot. -/
theorem cartline_snapshot_price_witness :
    add_to_cart catalogA 1 (some 2) ⟨none, some "u1"⟩ =
      ReqOutcome.ok ⟨some [⟨1, "A", 10, 2⟩], some "u1"⟩ ∧
    checkout "t" ⟨some [⟨1, "A", 10, 2⟩], some "u1"⟩ [] =
      ReqOutcome.ok (⟨none, some "u1"⟩, [⟨"u1", [⟨1, "A", 10, 2⟩], 20, "t", "pending"⟩]) := by
  have h := cartline_snapshot_price catalogA 1 2 ⟨"A", 10⟩ ⟨none, some "u1"⟩ "u1" "t" []
    (by decide) rfl
  exact ⟨h.1, h.2⟩

/-- C9: on a validated registration form, an email already present in the
customer directory yields "Email already registered" and no insert, while a
fresh email inserts exactly one customer document carrying the submitted
name, email and phone. -/
theorem register_email_uniqueness (customers : List Customer)
    (name email phone now : String) :
    ((∃ c ∈ customers, c.email = email) →
      register customers true name email phone now =
        (RegisterResult.duplicateEmail, customers)) ∧
    ((∀ c ∈ customers, c.email ≠ email) →
      register customers true name email phone now =
        (RegisterResult.registered, customers ++ [⟨name, email, phone, now⟩])) := by
  constructor
  · rintro ⟨c, hc, he⟩
    have hsome : (customers.find? (fun c => c.email == email)).isSome := by
      rw [List.find?_isSome]
      exact ⟨c, hc, by simp [he]⟩
    obtain ⟨c', hc'⟩ := Option.isSome_iff_exists.mp hsome
    simp [register, hc']
  · intro h
    have hnone : customers.find? (fun c => c.email == email) = none := by
      rw [List.find?_eq_none]
      intro c hc
      simp [h c hc]
    simp [register, hnone]

/-- Witness for C9: re-registering "b@x.com" is rejected with no insert;
registering fresh "a@x.com" inserts exactly that customer. -/
theorem register_email_uniqueness_witness :
    register [⟨"Bob", "b@x.com", "123456", "d0"⟩] true "Eve" "b@x.com" "999999" "d1" =
      (RegisterResult.duplicateEmail, [⟨"Bob", "b@x.com", "123456", "d0"⟩]) ∧
    register [] true "Ann" "a@x.com" "123456" "d1" =
      (RegisterResult.registered, [⟨"Ann", "a@x.com", "123456", "d1"⟩]) := by
  constructor
  · exact (register_email_uniqueness [⟨"Bob", "b@x.com", "123456", "d0"⟩]
      "Eve" "b@x.com" "999999" "d1").1 ⟨⟨"Bob", "b@x.com", "123456", "d0"⟩, by decide⟩
  · exact (register_email_uniqueness [] "Ann" "a@x.com" "123456" "d1").2
      (by intro c hc; cases hc)
